import Mathlib

/-!
Verification of the telemetry ingestion core of the
`gate_matrix_data_gathering` repository (`src/movesensor.py`,
`src/annotation.py`), shallowly embedded in Lean 4.

The embedding follows the source:
* `DataView` / decode errors model the bounds-checked binary view
  (`src/binary_parser.py` is imported by `movesensor.py` but its source is
  not in the repository snapshot, so it is modelled from the spec).
* `Acceleration` models the reading record (`models.py` is likewise absent;
  its CSV row shape is modelled from the spec).
* `run_queue_consumer` / `save_as_csv` model the sink coroutine.
* `run_ble_client` models the session coroutine as a function from an
  environment (discovery results, GATT outcomes, delivered notifications)
  to the trace of GATT actions, the queue items pushed, and the exception,
  if any, escaping the coroutine.
-/

/-- Bytes are naturals below 256; buffers are byte lists. Values never
exceed 255 in any concrete input used here; arithmetic facts about byte
bounds are not needed for the claims. -/
abbrev Byte := Nat

/-- Modelled from the spec: decode failure of the binary view accessors
(`src/binary_parser.py` is not in the snapshot). The spec names the failure
`DecodeError::OutOfBounds`, raised when `offset + field_width` exceeds the
buffer length. -/
inductive DecodeError where
  | outOfBounds
deriving DecidableEq, Repr

/-- Modelled from the spec: the `DataView` class of the absent
`src/binary_parser.py` — an immutable, bounds-checked view over the raw
notification payload. -/
structure DataView where
  buffer : List Byte
deriving DecidableEq, Repr

/-- Modelled from the spec: `get_uint_32` reads 4 bytes at `offset` in
little-endian order and fails with `OutOfBounds` when `offset + 4` exceeds
the buffer length. -/
def DataView.get_uint_32 (d : DataView) (offset : Nat) : Except DecodeError Nat :=
  if offset + 4 ≤ d.buffer.length then
    .ok (d.buffer.getD offset 0 + 2 ^ 8 * d.buffer.getD (offset + 1) 0
      + 2 ^ 16 * d.buffer.getD (offset + 2) 0 + 2 ^ 24 * d.buffer.getD (offset + 3) 0)
  else
    .error .outOfBounds

/-- An IEEE-754 binary32 value, carried as its 32-bit pattern. -/
structure F32 where
  bits : Nat
deriving DecidableEq, Repr

/-- Modelled from the spec: `get_float_32` reads the same 4 little-endian
bytes as `get_uint_32` and reinterprets them as an IEEE-754 binary32
pattern, with the same bounds failure mode. -/
def DataView.get_float_32 (d : DataView) (offset : Nat) : Except DecodeError F32 :=
  (d.get_uint_32 offset).map F32.mk

/-- Numeric value of an IEEE-754 binary32 bit pattern, as a rational;
`none` for infinities and NaNs (exponent field all ones). -/
def F32.toRat (x : F32) : Option ℚ :=
  let s : Nat := x.bits / 2 ^ 31 % 2
  let e : Nat := x.bits / 2 ^ 23 % 2 ^ 8
  let m : Nat := x.bits % 2 ^ 23
  if e = 255 then none
  else
    let num : ℤ := if e = 0 then (m : ℤ) else ((2 ^ 23 + m) * 2 ^ e : Nat)
    let den : Nat := if e = 0 then 2 ^ 149 else 2 ^ 150
    some (mkRat (if s = 1 then -num else num) den)

/-- The decoded reading record (`Acceleration` in the absent `models.py`);
field names and construction follow the call in `notification_handler`. -/
structure Acceleration where
  timestamp : Nat
  timestamp_local : String
  ax : F32
  ay : F32
  az : F32
  fall_state : String
deriving DecidableEq, Repr

/-- One cell of the CSV-shaped output. -/
inductive Cell where
  | nat (n : Nat)
  | str (s : String)
  | f32 (x : F32)
deriving DecidableEq, Repr

/-- Modelled from the spec: `Acceleration.as_csv_field` of the absent
`models.py` — one CSV row per reading, fields in header order. -/
def Acceleration.as_csv_field (a : Acceleration) : List Cell :=
  [.nat a.timestamp, .str a.timestamp_local, .f32 a.ax, .f32 a.ay, .f32 a.az,
    .str a.fall_state]

/-- The header row written by `save_as_csv`. -/
def csv_header : List Cell :=
  [.str "timestamp", .str "timestamp_local", .str "ax", .str "ay", .str "az",
    .str "fall_state"]

/-- The serialization step of `save_as_csv`: header row, then one row per
accumulated reading, in order. File naming is outside the embedding. -/
def save_as_csv (data_points : List Acceleration) : List (List Cell) :=
  csv_header :: data_points.map Acceleration.as_csv_field

/-- Accumulation loop of `run_queue_consumer`: `acc` is `DATA_POINTS`;
the list argument is the sequence of items the queue delivers, in FIFO
order. The loop appends readings until the first sentinel (`None`), at
which point it returns the accumulated points (and the caller flushes);
if the delivered sequence is exhausted with no sentinel the consumer is
still suspended on `queue.get()` and no flush happens (`none`). -/
def consume (acc : List Acceleration) :
    List (Option Acceleration) → Option (List Acceleration)
  | [] => none
  | none :: _ => some acc
  | some a :: rest => consume (acc ++ [a]) rest

/-- The sink coroutine `run_queue_consumer`: given the FIFO sequence of
queue items, produces the flushed CSV output (`some`) when a sentinel is
dequeued, and nothing (`none`) if the loop never sees a sentinel. The
`Option` also records that at most one flush occurs. -/
def run_queue_consumer (items : List (Option Acceleration)) :
    Option (List (List Cell)) :=
  (consume [] items).map save_as_csv

/-- The annotation window state (`annotation.py`): a single mutable
`fall_state` string, initially `"default"`. -/
structure AnnotateAccelerometerData where
  fall_state : String
deriving DecidableEq, Repr

/-- Initial state from `AnnotateAccelerometerData.__init__`. -/
def AnnotateAccelerometerData.init : AnnotateAccelerometerData :=
  { fall_state := "default" }

/-- Click handler of the Start Fall button: sets `fall_state` to
`"Start"`. -/
def AnnotateAccelerometerData.fall_button_clicked
    (a : AnnotateAccelerometerData) : AnnotateAccelerometerData :=
  { a with fall_state := "Start" }

/-- Click handler of the Stop Fall button: sets `fall_state` to
`"Stop"`. -/
def AnnotateAccelerometerData.not_fall_button_clicked
    (a : AnnotateAccelerometerData) : AnnotateAccelerometerData :=
  { a with fall_state := "Stop" }

/-- One notification delivery: the raw payload together with the host
wall-clock string taken at decode time and the value the shared
`fall_state` holds at the moment this notification is decoded. -/
structure NotificationEvent where
  payload : List Byte
  localTime : String
  fallState : String
deriving DecidableEq, Repr

/-- The decode step of `notification_handler`: fields at byte offsets
2 (u32 timestamp) and 6 / 10 / 14 (f32 ax / ay / az), stamped with the
local time and the current `fall_state`. A failing accessor raises out of
this handler invocation. -/
def decode_notification (ev : NotificationEvent) :
    Except DecodeError Acceleration :=
  let d := DataView.mk ev.payload
  do
    let ts ← d.get_uint_32 2
    let ax ← d.get_float_32 6
    let ay ← d.get_float_32 10
    let az ← d.get_float_32 14
    pure { timestamp := ts, timestamp_local := ev.localTime, ax := ax,
           ay := ay, az := az, fall_state := ev.fallState }

/-- The notification loop: each delivered notification invokes
`notification_handler` in its own task; a successfully decoded reading is
pushed onto the queue, a failing invocation is confined to that task (the
transport keeps dispatching), so the malformed reading is simply dropped. -/
def processNotifications (evs : List NotificationEvent) : List Acceleration :=
  evs.filterMap (fun ev => (decode_notification ev).toOption)

/-- A discovered BLE device as seen by the scan loop: the name attribute
may be absent (Python `None`, modelled as `none`) and truthiness also
rejects the empty string. -/
structure BLEDevice where
  name : Option String
  address : String
deriving DecidableEq, Repr

/-- Suffix test on strings, the semantics of Python `str.endswith`: the
candidate suffix must be a suffix of the character sequence. -/
def ends_with (s post : String) : Bool :=
  post.data.isSuffixOf s.data

/-- The match test of the discovery loop, `d.name and
d.name.endswith(end_of_serial)`: a falsy name (absent or empty) fails
before the suffix comparison. -/
def name_matches (end_of_serial : String) (name : Option String) : Bool :=
  match name with
  | none => false
  | some s => !(s == "") && ends_with s end_of_serial

/-- The discovery loop of `run_ble_client`: scan results are walked in
order and the first device whose name matches wins. -/
def find_device (end_of_serial : String) (devices : List BLEDevice) :
    Option BLEDevice :=
  devices.find? (fun d => name_matches end_of_serial d.name)

/-- UUID of the control (write) characteristic. -/
def WRITE_CHARACTERISTIC_UUID : String := "34800001-7185-4d5d-b431-630e7050e8f0"

/-- UUID of the data (notify) characteristic. -/
def NOTIFY_CHARACTERISTIC_UUID : String := "34800002-7185-4d5d-b431-630e7050e8f0"

/-- Configured sensor identifier suffix. -/
def SENSOR_ID : String := "223430000278"

/-- The subscribe command payload: opcode 1, client id 99, then the ASCII
path selecting the 13 Hz acceleration stream. -/
def subscribe_payload : List Byte :=
  [1, 99] ++ ("/Meas/Acc/13".toList.map Char.toNat)

/-- GATT operations attempted by the session, in order. -/
inductive GattAction where
  | connect (address : String)
  | startNotify (uuid : String)
  | writeGattChar (uuid : String) (payload : List Byte) (response : Bool)
  | stopNotify (uuid : String)
deriving DecidableEq, Repr

/-- The exception, if any, escaping `run_ble_client`: each constructor
names the GATT operation whose failure raised it. There is no exception
handling in the source coroutine, so any of these aborts the coroutine at
the point of failure. -/
inductive SessionError where
  | connectFailure
  | subscribeFailure
  | unsubscribeFailure
  | disconnectFailure
deriving DecidableEq, Repr

/-- Environment of one session run: what discovery returns, whether each
GATT operation succeeds, the notifications delivered while subscribed, and
the connection status observed at teardown. -/
structure BLEEnv where
  devices : List BLEDevice
  connect_ok : Bool
  start_notify_ok : Bool
  subscribe_write_ok : Bool
  notifications : List NotificationEvent
  status_at_teardown : Bool
  unsubscribe_write_ok : Bool
  stop_notify_ok : Bool
deriving DecidableEq, Repr

/-- Observable outcome of one session run: the GATT actions attempted (in
order, including the failing one), the items pushed onto the ingestion
queue (in order; `none` is the end-of-stream sentinel), and the exception
escaping the coroutine, if any. -/
structure SessionResult where
  actions : List GattAction
  queueItems : List (Option Acceleration)
  error : Option SessionError
deriving DecidableEq, Repr

/-- The session coroutine `run_ble_client`, mirrored branch by branch:
discovery failure prints and pushes the sentinel; otherwise the device is
connected, notifications are started, the subscribe command is written,
notifications stream until the disconnect event, then — only if the
connection is still live — the unsubscribe command is written and
notifications stopped, and finally the sentinel is pushed. A failing GATT
operation raises immediately (there is no try/except in the source), so
everything after it, the sentinel push included, does not happen. -/
def run_ble_client (end_of_serial : String) (env : BLEEnv) : SessionResult :=
  match find_device end_of_serial env.devices with
  | none => { actions := [], queueItems := [none], error := none }
  | some d =>
    if !env.connect_ok then
      { actions := [.connect d.address], queueItems := [],
        error := some .connectFailure }
    else if !env.start_notify_ok then
      { actions := [.connect d.address, .startNotify NOTIFY_CHARACTERISTIC_UUID],
        queueItems := [], error := some .subscribeFailure }
    else if !env.subscribe_write_ok then
      { actions := [.connect d.address, .startNotify NOTIFY_CHARACTERISTIC_UUID,
          .writeGattChar WRITE_CHARACTERISTIC_UUID subscribe_payload true],
        queueItems := [], error := some .subscribeFailure }
    else
      let setup : List GattAction :=
        [.connect d.address, .startNotify NOTIFY_CHARACTERISTIC_UUID,
          .writeGattChar WRITE_CHARACTERISTIC_UUID subscribe_payload true]
      let pushed := (processNotifications env.notifications).map some
      if env.status_at_teardown then
        if !env.unsubscribe_write_ok then
          { actions := setup ++ [.writeGattChar WRITE_CHARACTERISTIC_UUID [2, 99] true],
            queueItems := pushed, error := some .unsubscribeFailure }
        else if !env.stop_notify_ok then
          { actions := setup ++ [.writeGattChar WRITE_CHARACTERISTIC_UUID [2, 99] true,
              .stopNotify NOTIFY_CHARACTERISTIC_UUID],
            queueItems := pushed, error := some .disconnectFailure }
        else
          { actions := setup ++ [.writeGattChar WRITE_CHARACTERISTIC_UUID [2, 99] true,
              .stopNotify NOTIFY_CHARACTERISTIC_UUID],
            queueItems := pushed ++ [none], error := none }
      else
        { actions := setup, queueItems := pushed ++ [none], error := none }

/-- The 18-byte example payload from the wire-format contract. -/
def c6_payload : List Byte :=
  [0, 0, 10, 0, 0, 0, 0, 0, 128, 63, 0, 0, 0, 64, 0, 0, 64, 64]

/-- Reference little-endian uint32 decode at a byte offset, used to state
what the accessors read. -/
def le_u32_at (buf : List Byte) (offset : Nat) : Nat :=
  buf.getD offset 0 + 2 ^ 8 * buf.getD (offset + 1) 0
    + 2 ^ 16 * buf.getD (offset + 2) 0 + 2 ^ 24 * buf.getD (offset + 3) 0

lemma consume_append_map_some (rs : List Acceleration) :
    ∀ (acc : List Acceleration) (rest : List (Option Acceleration)),
      consume acc (rs.map some ++ rest) = consume (acc ++ rs) rest := by
  induction rs with
  | nil => intro acc rest; simp [consume]
  | cons a as ih =>
    intro acc rest
    simp only [List.map_cons, List.cons_append, consume, List.append_eq]
    rw [ih]
    simp [List.append_assoc]

lemma getD_take_of_lt (l : List Byte) (n i : Nat) (hi : i < n) :
    (l.take n).getD i 0 = l.getD i 0 := by
  simp [List.getD_eq_getElem?_getD, List.getElem?_take_of_lt hi]

lemma get_uint_32_ok (buf : List Byte) (offset : Nat)
    (h : offset + 4 ≤ buf.length) :
    (DataView.mk buf).get_uint_32 offset = .ok (le_u32_at buf offset) := by
  simp only [DataView.get_uint_32, le_u32_at]
  rw [if_pos (by simpa using h)]

lemma get_float_32_ok (buf : List Byte) (offset : Nat)
    (h : offset + 4 ≤ buf.length) :
    (DataView.mk buf).get_float_32 offset = .ok ⟨le_u32_at buf offset⟩ := by
  simp [DataView.get_float_32, get_uint_32_ok buf offset h, Except.map]

lemma decode_layout (ev : NotificationEvent) (h : 18 ≤ ev.payload.length) :
    decode_notification ev = .ok
      { timestamp := le_u32_at ev.payload 2, timestamp_local := ev.localTime,
        ax := ⟨le_u32_at ev.payload 6⟩, ay := ⟨le_u32_at ev.payload 10⟩,
        az := ⟨le_u32_at ev.payload 14⟩, fall_state := ev.fallState } := by
  simp only [decode_notification,
    get_uint_32_ok ev.payload 2 (by omega),
    get_float_32_ok ev.payload 6 (by omega),
    get_float_32_ok ev.payload 10 (by omega),
    get_float_32_ok ev.payload 14 (by omega),
    Bind.bind, Except.bind, pure, Except.pure]

lemma decode_ok_fall_state (ev : NotificationEvent) (r : Acceleration)
    (h : decode_notification ev = .ok r) : r.fall_state = ev.fallState := by
  simp only [decode_notification] at h
  rcases h2 : (DataView.mk ev.payload).get_uint_32 2 with e | ts <;>
    rw [h2] at h <;> simp only [Bind.bind, Except.bind] at h
  · exact Except.noConfusion h
  rcases h6 : (DataView.mk ev.payload).get_float_32 6 with e | ax <;>
    rw [h6] at h <;> simp only [Except.bind] at h
  · exact Except.noConfusion h
  rcases h10 : (DataView.mk ev.payload).get_float_32 10 with e | ay <;>
    rw [h10] at h <;> simp only [Except.bind] at h
  · exact Except.noConfusion h
  rcases h14 : (DataView.mk ev.payload).get_float_32 14 with e | az <;>
    rw [h14] at h <;> simp only [Except.bind] at h
  · exact Except.noConfusion h
  simp only [pure, Except.pure, Except.ok.injEq] at h
  rw [← h]

/-- C4: readings enqueued before the sentinel are accumulated by the sink
in exact FIFO order and, on the sentinel, serialized exactly once: the
header row followed by one row per reading in arrival order; the `some`
result is the single flush, after which the loop terminates. -/
theorem sink_serializes_fifo (rs : List Acceleration)
    (rest : List (Option Acceleration)) :
    run_queue_consumer (rs.map some ++ none :: rest)
      = some (csv_header :: rs.map Acceleration.as_csv_field) := by
  unfold run_queue_consumer
  rw [consume_append_map_some]
  simp [consume, save_as_csv]

/-- C10: the sink stops consuming at the first sentinel it dequeues — the
accumulated buffer is exactly the readings before that sentinel, whatever
is enqueued after it never appears, and the flushed output is the same as
if the queue had ended at the sentinel. -/
theorem sink_ignores_items_after_sentinel (rs : List Acceleration)
    (rest : List (Option Acceleration)) :
    consume [] (rs.map some ++ none :: rest) = some rs
    ∧ run_queue_consumer (rs.map some ++ none :: rest)
        = run_queue_consumer (rs.map some ++ [none]) := by
  constructor
  · rw [consume_append_map_some]; simp [consume]
  · unfold run_queue_consumer
    rw [consume_append_map_some, consume_append_map_some]
    simp [consume]

/-- C5: for every buffer and offset, both accessors validate
`offset + 4 <= length`: a too-short buffer yields the `OutOfBounds`
decode error, and an in-bounds read depends only on the first
`offset + 4` bytes, so nothing past the end of the buffer is ever read. -/
theorem accessors_bounds_checked (buf : List Byte) (offset : Nat) :
    (buf.length < offset + 4 →
      (DataView.mk buf).get_uint_32 offset = .error .outOfBounds
      ∧ (DataView.mk buf).get_float_32 offset = .error .outOfBounds)
    ∧ (offset + 4 ≤ buf.length →
      (DataView.mk buf).get_uint_32 offset
        = (DataView.mk (buf.take (offset + 4))).get_uint_32 offset
      ∧ (DataView.mk buf).get_float_32 offset
        = (DataView.mk (buf.take (offset + 4))).get_float_32 offset) := by
  constructor
  · intro h
    have hn : ¬ (offset + 4 ≤ buf.length) := by omega
    constructor
    · simp [DataView.get_uint_32, hn]
    · simp [DataView.get_float_32, DataView.get_uint_32, hn, Except.map]
  · intro h
    have hu : (DataView.mk buf).get_uint_32 offset
        = (DataView.mk (buf.take (offset + 4))).get_uint_32 offset := by
      rw [get_uint_32_ok buf offset h,
        get_uint_32_ok (buf.take (offset + 4)) offset
          (by simp [List.length_take]; omega)]
      simp only [le_u32_at, Except.ok.injEq]
      rw [getD_take_of_lt _ _ _ (by omega), getD_take_of_lt _ _ _ (by omega),
        getD_take_of_lt _ _ _ (by omega), getD_take_of_lt _ _ _ (by omega)]
    exact ⟨hu, by simp [DataView.get_float_32, hu]⟩

/-- Witness for C5 at concrete inputs: a 3-byte buffer is too short for an
offset-0 read and fails with `OutOfBounds`; an in-bounds offset-0 read of
a 5-byte buffer only uses its first 4 bytes. -/
theorem accessors_bounds_checked_witness :
    (DataView.mk [1, 2, 3]).get_uint_32 0 = .error .outOfBounds
    ∧ (DataView.mk [1, 2, 3, 4, 5]).get_uint_32 0
        = (DataView.mk ([1, 2, 3, 4, 5].take 4)).get_uint_32 0 :=
  ⟨((accessors_bounds_checked [1, 2, 3] 0).1 (by decide)).1,
   ((accessors_bounds_checked [1, 2, 3, 4, 5] 0).2 (by decide)).1⟩

/-- C6: for every buffer of length at least 18, decoding reads the device
timestamp as a little-endian uint32 at offset 2 and ax, ay, az as
little-endian binary32 patterns at offsets 6, 10, 14; on the 18-byte
example payload this yields timestamp 10 and bit patterns whose IEEE-754
values are 1, 2 and 3. -/
theorem decode_layout_and_example :
    (∀ ev : NotificationEvent, 18 ≤ ev.payload.length →
      decode_notification ev = .ok
        { timestamp := le_u32_at ev.payload 2, timestamp_local := ev.localTime,
          ax := ⟨le_u32_at ev.payload 6⟩, ay := ⟨le_u32_at ev.payload 10⟩,
          az := ⟨le_u32_at ev.payload 14⟩, fall_state := ev.fallState })
    ∧ decode_notification
        { payload := c6_payload, localTime := "t", fallState := "default" }
      = .ok { timestamp := 10, timestamp_local := "t", ax := ⟨1065353216⟩,
              ay := ⟨1073741824⟩, az := ⟨1077936128⟩, fall_state := "default" }
    ∧ F32.toRat ⟨1065353216⟩ = some 1
    ∧ F32.toRat ⟨1073741824⟩ = some 2
    ∧ F32.toRat ⟨1077936128⟩ = some 3 :=
  ⟨fun ev h => decode_layout ev h, by rfl, by decide, by decide, by decide⟩

/-- Witness for C6: the general layout statement applied to the concrete
18-byte example payload. -/
theorem decode_layout_and_example_witness :
    decode_notification
        { payload := c6_payload, localTime := "t", fallState := "default" }
      = .ok { timestamp := le_u32_at c6_payload 2, timestamp_local := "t",
              ax := ⟨le_u32_at c6_payload 6⟩, ay := ⟨le_u32_at c6_payload 10⟩,
              az := ⟨le_u32_at c6_payload 14⟩, fall_state := "default" } :=
  decode_layout_and_example.1
    { payload := c6_payload, localTime := "t", fallState := "default" }
    (by decide)

/-- C2: a malformed payload in the notification stream does not abort the
session: its handler invocation fails, the reading is dropped, and every
other notification before and after it is decoded and enqueued exactly as
if the malformed one had not been delivered. -/
theorem malformed_notification_dropped (l₁ l₂ : List NotificationEvent)
    (bad : NotificationEvent) (e : DecodeError)
    (h : decode_notification bad = .error e) :
    processNotifications (l₁ ++ bad :: l₂)
      = processNotifications l₁ ++ processNotifications l₂ := by
  simp [processNotifications, List.filterMap_append, List.filterMap_cons, h,
    Except.toOption]

/-- Witness for C2: an empty payload fails to decode and is dropped,
leaving the processed stream of the surrounding notifications unchanged. -/
theorem malformed_notification_dropped_witness :
    decode_notification { payload := [], localTime := "t", fallState := "default" }
      = .error .outOfBounds
    ∧ processNotifications
        [{ payload := c6_payload, localTime := "t0", fallState := "default" },
         { payload := [], localTime := "t", fallState := "default" },
         { payload := c6_payload, localTime := "t1", fallState := "default" }]
      = processNotifications
          [{ payload := c6_payload, localTime := "t0", fallState := "default" }]
        ++ processNotifications
          [{ payload := c6_payload, localTime := "t1", fallState := "default" }] :=
  ⟨by rfl,
   by
    have h := malformed_notification_dropped
      [{ payload := c6_payload, localTime := "t0", fallState := "default" }]
      [{ payload := c6_payload, localTime := "t1", fallState := "default" }]
      { payload := [], localTime := "t", fallState := "default" }
      .outOfBounds (by rfl)
    simpa using h⟩

/-- C8: a reading's `fall_state` is a snapshot of the annotation value at
the moment its notification is decoded: a decoded reading carries exactly
the `fall_state` current at its decode, processing is compositional (later
notifications and later state changes never alter earlier readings), and
two notifications decoded while the state is `"default"` then `"Start"`
yield two CSV rows with those `fall_state` values in arrival order. -/
theorem fall_state_snapshot (ev : NotificationEvent) (r : Acceleration)
    (l₁ l₂ : List NotificationEvent)
    (h : decode_notification ev = .ok r) :
    r.fall_state = ev.fallState
    ∧ processNotifications (l₁ ++ l₂)
        = processNotifications l₁ ++ processNotifications l₂
    ∧ (AnnotateAccelerometerData.init.fall_state = "default"
      ∧ AnnotateAccelerometerData.init.fall_button_clicked.fall_state = "Start"
      ∧ save_as_csv (processNotifications
          [{ payload := c6_payload, localTime := "t0",
             fallState := AnnotateAccelerometerData.init.fall_state },
           { payload := c6_payload, localTime := "t1",
             fallState := AnnotateAccelerometerData.init.fall_button_clicked.fall_state }])
        = [csv_header,
           [.nat 10, .str "t0", .f32 ⟨1065353216⟩, .f32 ⟨1073741824⟩,
             .f32 ⟨1077936128⟩, .str "default"],
           [.nat 10, .str "t1", .f32 ⟨1065353216⟩, .f32 ⟨1073741824⟩,
             .f32 ⟨1077936128⟩, .str "Start"]]) :=
  ⟨decode_ok_fall_state ev r h,
   by simp [processNotifications, List.filterMap_append],
   by rfl, by rfl, by rfl⟩

/-- Witness for C8: the snapshot property applied to the concrete example
payload decoded while the annotation state is `"default"`. -/
theorem fall_state_snapshot_witness :
    ({ timestamp := 10, timestamp_local := "t0", ax := ⟨1065353216⟩,
       ay := ⟨1073741824⟩, az := ⟨1077936128⟩,
       fall_state := "default" } : Acceleration).fall_state = "default" :=
  (fall_state_snapshot
    { payload := c6_payload, localTime := "t0", fallState := "default" }
    _ [] [] (by rfl)).1

lemma none_not_mem_map_some (l : List Acceleration) :
    none ∉ l.map some := by
  simp [List.mem_map]

lemma getLast?_map_some_ne_some_none (l : List Acceleration) :
    (l.map some).getLast? ≠ some none := by
  rw [List.getLast?_map]
  cases l.getLast? <;> simp

/-- C7: discovery selects the first discovered device whose name matches
the configured suffix — devices before it that do not match are skipped,
no ranking happens among later matches, and the selected address is the
one the session connects to; when no device matches the single pass, the
session takes the failed path (sentinel only, no GATT action). -/
theorem discovery_first_match (end_of_serial : String) (env : BLEEnv)
    (pre post : List BLEDevice) (d : BLEDevice)
    (hdev : env.devices = pre ++ d :: post)
    (hpre : ∀ d2 ∈ pre, name_matches end_of_serial d2.name = false)
    (hd : name_matches end_of_serial d.name = true) :
    (find_device end_of_serial env.devices = some d
      ∧ (run_ble_client end_of_serial env).actions.head?
          = some (.connect d.address))
    ∧ ∀ env2 : BLEEnv, find_device end_of_serial env2.devices = none →
        run_ble_client end_of_serial env2
          = { actions := [], queueItems := [none], error := none } := by
  have hfind : find_device end_of_serial env.devices = some d := by
    rw [hdev, find_device, List.find?_append]
    have h1 : List.find? (fun d2 => name_matches end_of_serial d2.name) pre
        = none :=
      List.find?_eq_none.mpr (by intro x hx; simp [hpre x hx])
    rw [h1, List.find?_cons_of_pos _ (by simpa using hd)]
    rfl
  refine ⟨⟨hfind, ?_⟩, ?_⟩
  · simp only [run_ble_client, hfind]
    cases hc : env.connect_ok <;> cases hsn : env.start_notify_ok <;>
      cases hsw : env.subscribe_write_ok <;>
      cases hst : env.status_at_teardown <;>
      cases huw : env.unsubscribe_write_ok <;>
      cases hstn : env.stop_notify_ok <;> simp
  · intro env2 h2
    simp only [run_ble_client, h2]

/-- Witness for C7: among four discovered devices, the third is the first
whose name ends in the configured suffix and its address is the one
connected to. -/
theorem discovery_first_match_witness :
    find_device "b"
        [{ name := some "zz", address := "a0" }, { name := none, address := "a1" },
         { name := some "ab", address := "A2" }, { name := some "cb", address := "a3" }]
      = some { name := some "ab", address := "A2" }
    ∧ (run_ble_client "b"
        { devices := [{ name := some "zz", address := "a0" },
            { name := none, address := "a1" },
            { name := some "ab", address := "A2" },
            { name := some "cb", address := "a3" }],
          connect_ok := true, start_notify_ok := true, subscribe_write_ok := true,
          notifications := [], status_at_teardown := true,
          unsubscribe_write_ok := true, stop_notify_ok := true }).actions.head?
      = some (.connect "A2") :=
  (discovery_first_match "b"
    { devices := [{ name := some "zz", address := "a0" },
        { name := none, address := "a1" },
        { name := some "ab", address := "A2" },
        { name := some "cb", address := "a3" }],
      connect_ok := true, start_notify_ok := true, subscribe_write_ok := true,
      notifications := [], status_at_teardown := true,
      unsubscribe_write_ok := true, stop_notify_ok := true }
    [{ name := some "zz", address := "a0" }, { name := none, address := "a1" }]
    [{ name := some "cb", address := "a3" }]
    { name := some "ab", address := "A2" }
    (by rfl) (by decide) (by decide)).1

/-- C9: a device with a falsy name attribute (absent or empty) is never
matched, whatever the configured suffix: a scan returning only such
devices makes discovery fail and the session takes the failure path. -/
theorem nameless_devices_never_match (end_of_serial : String) (env : BLEEnv)
    (h : ∀ d ∈ env.devices, d.name = none ∨ d.name = some "") :
    find_device end_of_serial env.devices = none
    ∧ run_ble_client end_of_serial env
        = { actions := [], queueItems := [none], error := none } := by
  have hf : find_device end_of_serial env.devices = none := by
    rw [find_device]
    refine List.find?_eq_none.mpr ?_
    intro x hx
    rcases h x hx with h1 | h1 <;> simp [name_matches, h1]
  exact ⟨hf, by simp only [run_ble_client, hf]⟩

/-- Witness for C9: a scan with one nameless and one empty-named device
matches nothing, even with the empty suffix. -/
theorem nameless_devices_never_match_witness :
    find_device ""
        [{ name := none, address := "x" }, { name := some "", address := "y" }]
      = none
    ∧ run_ble_client ""
        { devices := [{ name := none, address := "x" },
            { name := some "", address := "y" }],
          connect_ok := true, start_notify_ok := true, subscribe_write_ok := true,
          notifications := [], status_at_teardown := true,
          unsubscribe_write_ok := true, stop_notify_ok := true }
      = { actions := [], queueItems := [none], error := none } :=
  nameless_devices_never_match ""
    { devices := [{ name := none, address := "x" },
        { name := some "", address := "y" }],
      connect_ok := true, start_notify_ok := true, subscribe_write_ok := true,
      notifications := [], status_at_teardown := true,
      unsubscribe_write_ok := true, stop_notify_ok := true }
    (by decide)

/-- Session environment exhibiting a GATT connect failure: the device is
discovered but opening the connection raises. -/
def connect_fail_env : BLEEnv :=
  { devices := [{ name := some "ab", address := "A1" }], connect_ok := false,
    start_notify_ok := true, subscribe_write_ok := true, notifications := [],
    status_at_teardown := true, unsubscribe_write_ok := true,
    stop_notify_ok := true }

/-- C1 counterexample: when the GATT connect fails, the exception raised
inside the `async with` block escapes `run_ble_client` before any
`queue.put(None)` runs, so the sentinel is never enqueued and the sink
never flushes — contradicting the claim that every failure path still
pushes the sentinel. -/
theorem connect_failure_omits_sentinel :
    run_ble_client "b" connect_fail_env
      = { actions := [.connect "A1"], queueItems := [],
          error := some .connectFailure }
    ∧ none ∉ (run_ble_client "b" connect_fail_env).queueItems :=
  ⟨by rfl, by decide⟩

/-- C1 (amended): the sentinel is enqueued exactly on the runs where no
GATT exception escapes the session loop — every discovery-failure run in
particular, which still yields a header-only CSV from the sink — while a
run on which connect, subscribe, unsubscribe or stop-notify raises
terminates the loop without the sentinel having been enqueued. -/
theorem sentinel_exactly_on_clean_exit (end_of_serial : String) (env : BLEEnv) :
    ((run_ble_client end_of_serial env).error = none ↔
      (run_ble_client end_of_serial env).queueItems.getLast? = some none)
    ∧ ((run_ble_client end_of_serial env).error ≠ none →
        none ∉ (run_ble_client end_of_serial env).queueItems)
    ∧ (find_device end_of_serial env.devices = none →
        (run_ble_client end_of_serial env).queueItems = [none]
        ∧ run_queue_consumer (run_ble_client end_of_serial env).queueItems
            = some [csv_header]) := by
  cases hf : find_device end_of_serial env.devices with
  | none =>
    simp [run_ble_client, hf, run_queue_consumer, consume, save_as_csv,
      List.getLast?_singleton]
  | some d =>
    simp only [run_ble_client, hf]
    cases hc : env.connect_ok <;> cases hsn : env.start_notify_ok <;>
      cases hsw : env.subscribe_write_ok <;>
      cases hst : env.status_at_teardown <;>
      cases huw : env.unsubscribe_write_ok <;>
      cases hstn : env.stop_notify_ok <;>
      simp [hf, List.getLast?_concat, none_not_mem_map_some,
        getLast?_map_some_ne_some_none]

/-- Witness for C1 (amended): a scan that discovers no matching device
still pushes the sentinel and the sink flushes a header-only CSV. -/
theorem sentinel_exactly_on_clean_exit_witness :
    (run_ble_client "b"
        { devices := [], connect_ok := true, start_notify_ok := true,
          subscribe_write_ok := true, notifications := [],
          status_at_teardown := true, unsubscribe_write_ok := true,
          stop_notify_ok := true }).queueItems = [none]
    ∧ run_queue_consumer (run_ble_client "b"
        { devices := [], connect_ok := true, start_notify_ok := true,
          subscribe_write_ok := true, notifications := [],
          status_at_teardown := true, unsubscribe_write_ok := true,
          stop_notify_ok := true }).queueItems = some [csv_header] :=
  (sentinel_exactly_on_clean_exit "b"
    { devices := [], connect_ok := true, start_notify_ok := true,
      subscribe_write_ok := true, notifications := [],
      status_at_teardown := true, unsubscribe_write_ok := true,
      stop_notify_ok := true }).2.2 (by rfl)

/-- Session environment for teardown with a live connection whose
unsubscribe write raises. -/
def unsubscribe_fail_env : BLEEnv :=
  { devices := [{ name := some "ab", address := "A1" }], connect_ok := true,
    start_notify_ok := true, subscribe_write_ok := true, notifications := [],
    status_at_teardown := true, unsubscribe_write_ok := false,
    stop_notify_ok := true }

/-- C3 counterexample: with the connection still live at teardown, a
failing unsubscribe write raises out of the session (there is no
try/except around it), so teardown does not proceed and the sentinel is
never pushed — contradicting the claim that such a failure is non-fatal. -/
theorem unsubscribe_failure_omits_sentinel :
    run_ble_client "b" unsubscribe_fail_env
      = { actions := [.connect "A1", .startNotify NOTIFY_CHARACTERISTIC_UUID,
            .writeGattChar WRITE_CHARACTERISTIC_UUID subscribe_payload true,
            .writeGattChar WRITE_CHARACTERISTIC_UUID [2, 99] true],
          queueItems := [], error := some .unsubscribeFailure }
    ∧ none ∉ (run_ble_client "b" unsubscribe_fail_env).queueItems :=
  ⟨by rfl, by decide⟩

/-- C3 (amended): during teardown after the disconnect signal, a live
connection gets the unsubscribe command `[2, 99]` written with
acknowledgment and then notifications disabled, but a failure of either
step raises out of the session so the sentinel is not pushed; when both
succeed the sentinel follows, and when the connection is already down both
steps are skipped and the sentinel is pushed directly. -/
theorem teardown_unsubscribe_behavior (end_of_serial : String) (env : BLEEnv)
    (d : BLEDevice)
    (hfind : find_device end_of_serial env.devices = some d)
    (hc : env.connect_ok = true) (hsn : env.start_notify_ok = true)
    (hsw : env.subscribe_write_ok = true) :
    (env.status_at_teardown = true →
      GattAction.writeGattChar WRITE_CHARACTERISTIC_UUID [2, 99] true
          ∈ (run_ble_client end_of_serial env).actions
      ∧ (env.unsubscribe_write_ok = false →
          (run_ble_client end_of_serial env).error = some .unsubscribeFailure
          ∧ none ∉ (run_ble_client end_of_serial env).queueItems)
      ∧ (env.unsubscribe_write_ok = true →
          GattAction.stopNotify NOTIFY_CHARACTERISTIC_UUID
              ∈ (run_ble_client end_of_serial env).actions
          ∧ (env.stop_notify_ok = false →
              (run_ble_client end_of_serial env).error = some .disconnectFailure
              ∧ none ∉ (run_ble_client end_of_serial env).queueItems)
          ∧ (env.stop_notify_ok = true →
              (run_ble_client end_of_serial env).queueItems.getLast?
                = some none)))
    ∧ (env.status_at_teardown = false →
      (run_ble_client end_of_serial env).actions
        = [.connect d.address, .startNotify NOTIFY_CHARACTERISTIC_UUID,
           .writeGattChar WRITE_CHARACTERISTIC_UUID subscribe_payload true]
      ∧ (run_ble_client end_of_serial env).queueItems.getLast? = some none) := by
  simp only [run_ble_client, hfind, hc, hsn, hsw]
  cases hst : env.status_at_teardown <;>
    cases huw : env.unsubscribe_write_ok <;>
    cases hstn : env.stop_notify_ok <;>
    simp [List.getLast?_concat, none_not_mem_map_some]

/-- Witness for C3 (amended): a live-connection teardown whose unsubscribe
and stop-notify both succeed performs the unsubscribe write and then
pushes the sentinel. -/
theorem teardown_unsubscribe_behavior_witness :
    GattAction.writeGattChar WRITE_CHARACTERISTIC_UUID [2, 99] true
        ∈ (run_ble_client "b"
          { devices := [{ name := some "ab", address := "A1" }],
            connect_ok := true, start_notify_ok := true,
            subscribe_write_ok := true, notifications := [],
            status_at_teardown := true, unsubscribe_write_ok := true,
            stop_notify_ok := true }).actions
    ∧ (run_ble_client "b"
          { devices := [{ name := some "ab", address := "A1" }],
            connect_ok := true, start_notify_ok := true,
            subscribe_write_ok := true, notifications := [],
            status_at_teardown := true, unsubscribe_write_ok := true,
            stop_notify_ok := true }).queueItems.getLast? = some none := by
  have h := teardown_unsubscribe_behavior "b"
    { devices := [{ name := some "ab", address := "A1" }],
      connect_ok := true, start_notify_ok := true,
      subscribe_write_ok := true, notifications := [],
      status_at_teardown := true, unsubscribe_write_ok := true,
      stop_notify_ok := true }
    { name := some "ab", address := "A1" } (by rfl) rfl rfl rfl
  exact ⟨(h.1 rfl).1, ((h.1 rfl).2.2 rfl).2.2 rfl⟩
